import Mathlib

/-!
# Verification of the runupdater synchronization core

A shallow embedding of the runupdater repository (Go): a file-change watcher
feeding a single processing loop that reads two named tables from a changed
spreadsheet file and replaces the contents of two destination sheets.

External collaborators (the excelize reader, the Google Sheets API, the Go
standard library's `filepath.Clean` and `filepath.Base`, fsnotify's OS watch
backend) are modelled as explicit environments / oracle parameters; the
control flow of the repository's own functions (`RunUpdater.processFileChange`,
`RunUpdater.Start`'s processing loop, `GoogleSheetsClient.UpdateSheet`,
`FSNotifyWatcher.Start`, `LoadConfig`) is embedded faithfully, and every
externally visible operation they issue is recorded in a trace.
-/

namespace RunUpdaterModel

/-- A table's contents: ordered rows of ordered string cells
(Go `[][]string`). -/
abbrev RowSet := List (List String)

/-- Mirrors the Go `Config` struct from `main.go` (durations in
nanoseconds, as Go's `time.Duration`). -/
structure Config where
  LiveSplitExportPath : String
  FileCheckInterval : Nat
  GoogleSheetsCredentialsPath : String
  GoogleSheetID : String
  RawDataSheet1Name : String
  RawDataSheet2Name : String
  LogPath : String
  LogLevel : String
deriving Repr, DecidableEq

/-- One externally visible destination / source operation issued while
processing a notification. `readSheet` is `ExcelizeReader.ReadSheet`;
the other three are the Google Sheets API calls issued by
`GoogleSheetsClient.UpdateSheet`, in the order the Go code issues them:
`Spreadsheets.Get`, `Spreadsheets.Values.Clear`,
`Spreadsheets.Values.Update`. -/
inductive Op where
  | readSheet (filePath sheetName : String)
  | getSpreadsheet (sheetID : String)
  | clearValues (sheetID sheetName : String)
  | updateValues (sheetID sheetName : String) (data : RowSet)
deriving Repr, DecidableEq

/-- Environment for the Google Sheets API: whether the spreadsheet lookup
succeeds, which sheet titles the spreadsheet contains, and whether the
clear / update call for a given sheet name succeeds (fault injection for
the network). -/
structure SheetsEnv where
  getOk : Bool
  sheetTitles : List String
  clearOk : String → Bool
  writeOk : String → Bool

/-- The destination spreadsheet's contents, one `RowSet` per sheet name. -/
abbrev SheetsValues := String → RowSet

/-- Result of a modelled operation: the Go return value, the destination
state afterwards, and the trace of operations issued. -/
structure OpResult where
  result : Except String Unit
  vals : SheetsValues
  trace : List Op

/-- Embeds `GoogleSheetsClient.UpdateSheet` (src/unnamed/part_000).
`connected` is `gsc.service != nil` (set by a successful `Connect`).
The Go code: if not connected, error with no API call; otherwise
`Spreadsheets.Get`, search `resp.Sheets` for `sheetName`, error if absent;
otherwise `Values.Clear` (which empties the sheet when it succeeds), then
`Values.Update` writing `data`. A failed step returns its error
immediately. -/
def GoogleSheetsClient.UpdateSheet (env : SheetsEnv) (connected : Bool)
    (vals : SheetsValues) (sheetID sheetName : String) (data : RowSet) :
    OpResult :=
  if connected = false then
    ⟨.error "not connected to Google Sheets API", vals, []⟩
  else if env.getOk = false then
    ⟨.error "unable to retrieve spreadsheet", vals, [.getSpreadsheet sheetID]⟩
  else if env.sheetTitles.contains sheetName = false then
    ⟨.error ("sheet '" ++ sheetName ++ "' not found in spreadsheet"), vals,
      [.getSpreadsheet sheetID]⟩
  else if env.clearOk sheetName = false then
    ⟨.error "unable to clear sheet", vals,
      [.getSpreadsheet sheetID, .clearValues sheetID sheetName]⟩
  else if env.writeOk sheetName = false then
    ⟨.error "unable to update sheet",
      fun n => if n = sheetName then [] else vals n,
      [.getSpreadsheet sheetID, .clearValues sheetID sheetName,
        .updateValues sheetID sheetName data]⟩
  else
    ⟨.ok (), fun n => if n = sheetName then data else vals n,
      [.getSpreadsheet sheetID, .clearValues sheetID sheetName,
        .updateValues sheetID sheetName data]⟩

/-- Environment for `ExcelizeReader.ReadSheet`: the outcome of reading a
named sheet from a file path. -/
structure ReadEnv where
  readSheet : String → String → Except String RowSet

/-- Embeds `RunUpdater.processFileChange` (src/main.go lines 139-173),
parameterized over `clean`, the model of `filepath.Clean`. The Go code:
if `Clean filePath != Clean config.LiveSplitExportPath`, return nil with
no work; otherwise read sheet 1 then sheet 2 from `filePath` (each read
failure aborts with a wrapped error); then update destination sheet 1
then destination sheet 2 (each update failure aborts with a wrapped
error). -/
def RunUpdater.processFileChange (cfg : Config) (clean : String → String)
    (renv : ReadEnv) (senv : SheetsEnv) (connected : Bool)
    (vals : SheetsValues) (filePath : String) : OpResult :=
  if clean filePath ≠ clean cfg.LiveSplitExportPath then
    ⟨.ok (), vals, []⟩
  else
    match renv.readSheet filePath cfg.RawDataSheet1Name with
    | .error e =>
        ⟨.error ("failed to read first sheet: " ++ e), vals,
          [.readSheet filePath cfg.RawDataSheet1Name]⟩
    | .ok data1 =>
      match renv.readSheet filePath cfg.RawDataSheet2Name with
      | .error e =>
          ⟨.error ("failed to read second sheet: " ++ e), vals,
            [.readSheet filePath cfg.RawDataSheet1Name,
             .readSheet filePath cfg.RawDataSheet2Name]⟩
      | .ok data2 =>
        let reads : List Op :=
          [.readSheet filePath cfg.RawDataSheet1Name,
           .readSheet filePath cfg.RawDataSheet2Name]
        let u1 := GoogleSheetsClient.UpdateSheet senv connected vals
          cfg.GoogleSheetID cfg.RawDataSheet1Name data1
        match u1.result with
        | .error e =>
            ⟨.error ("failed to update first Google Sheet: " ++ e), u1.vals,
              reads ++ u1.trace⟩
        | .ok () =>
          let u2 := GoogleSheetsClient.UpdateSheet senv connected u1.vals
            cfg.GoogleSheetID cfg.RawDataSheet2Name data2
          match u2.result with
          | .error e =>
              ⟨.error ("failed to update second Google Sheet: " ++ e), u2.vals,
                reads ++ u1.trace ++ u2.trace⟩
          | .ok () => ⟨.ok (), u2.vals, reads ++ u1.trace ++ u2.trace⟩

/-- One outcome of the `select` in the processing loop launched by
`RunUpdater.Start`: context cancellation, the watcher channel closing
(`ok == false`), or a change notification carrying a file path. -/
inductive LoopInput where
  | ctxDone
  | chanClosed
  | notif (path : String)
deriving Repr, DecidableEq

/-- An observable effect of the processing loop: a log line or an issued
destination / source operation. -/
inductive Effect where
  | log (msg : String)
  | op (o : Op)
deriving Repr, DecidableEq

/-- Why the processing loop stopped consuming its schedule of inputs. -/
inductive LoopExit where
  | ctxDone
  | chanClosed
  | waiting
deriving Repr, DecidableEq

/-- Output of running the processing loop on a finite schedule of select
outcomes: the destination state it left behind, the effects it emitted in
order, and why it stopped (`waiting` means the schedule ran out while the
loop was still blocked waiting for the next notification). -/
structure LoopOut where
  final : SheetsValues
  effects : List Effect
  exit : LoopExit

/-- Embeds the processing-loop goroutine in `RunUpdater.Start`
(src/main.go lines 109-127): on context cancellation or channel closure,
log and return; on a notification, log the detection, run
`processFileChange`, log any error it returned, and loop. -/
def RunUpdater.loopRun (cfg : Config) (clean : String → String)
    (renv : ReadEnv) (senv : SheetsEnv) (connected : Bool) :
    List LoopInput → SheetsValues → LoopOut
  | [], vals => ⟨vals, [], .waiting⟩
  | .ctxDone :: _, vals =>
      ⟨vals, [.log "Context cancelled, stopping processing"], .ctxDone⟩
  | .chanClosed :: _, vals =>
      ⟨vals, [.log "File watcher channel closed"], .chanClosed⟩
  | .notif p :: rest, vals =>
      let r := RunUpdater.processFileChange cfg clean renv senv connected vals p
      let errLogs : List Effect :=
        match r.result with
        | .ok () => []
        | .error e => [.log ("Error processing file change: " ++ e)]
      let out := RunUpdater.loopRun cfg clean renv senv connected rest r.vals
      ⟨out.final,
        .log ("Detected change in file: " ++ p) ::
          (r.trace.map Effect.op ++ errLogs ++ out.effects),
        out.exit⟩

/-- A startup step taken by `RunUpdater.Start`. -/
inductive StartEffect where
  | connect
  | watcherStart
  | loopLaunched
deriving Repr, DecidableEq

/-- Embeds the startup sequence of `RunUpdater.Start` (src/main.go lines
93-130): connect to Google Sheets (failure is returned and nothing else
happens), start the file watcher (failure is returned), then launch the
processing goroutine and return nil. -/
def RunUpdater.Start (connectRes watcherRes : Except String Unit) :
    Except String Unit × List StartEffect :=
  match connectRes with
  | .error e =>
      (.error ("failed to connect to Google Sheets: " ++ e), [.connect])
  | .ok () =>
    match watcherRes with
    | .error e =>
        (.error ("failed to start file watcher: " ++ e),
          [.connect, .watcherStart])
    | .ok () => (.ok (), [.connect, .watcherStart, .loopLaunched])

/-- The whole run as the host sees it: `Start`'s return value is the only
value ever handed back to the host (main / the Windows service handler);
the processing goroutine's `LoopOut` is produced concurrently and its
exit is not reported to anyone. It runs only when `Start` succeeded, and
then the sheets client is connected. -/
def RunUpdater.systemRun (connectRes watcherRes : Except String Unit)
    (cfg : Config) (clean : String → String) (renv : ReadEnv)
    (senv : SheetsEnv) (inputs : List LoopInput) (vals : SheetsValues) :
    (Except String Unit × List StartEffect) × Option LoopOut :=
  match RunUpdater.Start connectRes watcherRes with
  | (.error e, effs) => ((.error e, effs), none)
  | (.ok (), effs) =>
      ((.ok (), effs),
        some (RunUpdater.loopRun cfg clean renv senv true inputs vals))

/-- The fsnotify operation bitmask values (`Op = 1 << iota` in fsnotify:
Create, Write, Remove, Rename, Chmod). -/
def fsnotifyCreate : Nat := 1
def fsnotifyWrite : Nat := 2
def fsnotifyRemove : Nat := 4
def fsnotifyRename : Nat := 8
def fsnotifyChmod : Nat := 16

/-- An fsnotify event: the path fsnotify reports and its operation
bitmask (possibly several bits set). -/
structure FsEvent where
  Name : String
  Op : Nat
deriving Repr, DecidableEq

/-- Embeds the per-event decision inside `FSNotifyWatcher.Start`'s
goroutine (src/unnamed/part_003 lines 78-93), parameterized over `base`,
the model of `filepath.Base`. `filename` is `filepath.Base(fw.filePath)`
computed when the watcher started. The Go code skips the event when its
base name differs from `filename`, and emits `event.Name` on the events
channel when `event.Op&Write == Write || event.Op&Create == Create`. -/
def FSNotifyWatcher.shouldEmit (base : String → String) (filename : String)
    (ev : FsEvent) : Bool :=
  if base ev.Name ≠ filename then
    false
  else if ev.Op &&& fsnotifyWrite = fsnotifyWrite
      ∨ ev.Op &&& fsnotifyCreate = fsnotifyCreate then
    true
  else
    false

/-- The mutable state of an `FSNotifyWatcher`: whether it is running, the
identity of its notification channel (`fw.events`, allocated once in the
constructor), and how many OS-level watch handles it currently holds
open. -/
structure WatcherState where
  isRunning : Bool
  eventsChan : Nat
  osHandles : Nat
deriving Repr, DecidableEq

/-- Environment for `FSNotifyWatcher.Start`: whether
`fsnotify.NewWatcher()` succeeds and whether `watcher.Add(dir)`
succeeds. -/
structure WatchEnv where
  newWatcherOk : Bool
  addOk : Bool
deriving Repr, DecidableEq

/-- Embeds the startup path of `FSNotifyWatcher.Start`
(src/unnamed/part_003 lines 37-63). Under the mutex: if already running,
return the existing events channel with no error and touch nothing;
otherwise create an OS watcher (failure returns the error), add the
target's directory (failure closes the just-created handle and returns
the error), mark running, launch the event goroutine, and return the
events channel. -/
def FSNotifyWatcher.Start (env : WatchEnv) (fw : WatcherState) :
    Except String Nat × WatcherState :=
  if fw.isRunning then
    (.ok fw.eventsChan, fw)
  else if env.newWatcherOk = false then
    (.error "fsnotify: failed to create watcher", fw)
  else if env.addOk = false then
    (.error "fsnotify: failed to add directory", fw)
  else
    (.ok fw.eventsChan,
      { fw with isRunning := true, osHandles := fw.osHandles + 1 })

/-- The JSON overlay decoded from the configuration file: `json.Decode`
into a pre-populated `Config` keeps the default for every absent field,
so each field is an `Option`. -/
structure ConfigOverlay where
  LiveSplitExportPath : Option String := none
  FileCheckInterval : Option Nat := none
  GoogleSheetsCredentialsPath : Option String := none
  GoogleSheetID : Option String := none
  RawDataSheet1Name : Option String := none
  RawDataSheet2Name : Option String := none
  LogPath : Option String := none
  LogLevel : Option String := none
deriving Repr, DecidableEq

/-- The outcome of opening and decoding the configuration file:
`os.Open` failing, `decoder.Decode` failing, or a decoded overlay. -/
inductive ConfigFileRead where
  | openError (e : String)
  | parseError (e : String)
  | parsed (ov : ConfigOverlay)
deriving Repr, DecidableEq

/-- Embeds `LoadConfig` (src/config.go lines 11-50). Defaults:
`FileCheckInterval` 5 seconds (5000000000 ns) and `LogLevel` "info";
every other field defaults to Go's zero value `""`. After a successful
decode the five required fields are validated to be non-empty, in the
source's order. -/
def LoadConfig (fr : ConfigFileRead) : Except String Config :=
  match fr with
  | .openError e => .error ("failed to open config file: " ++ e)
  | .parseError e => .error ("failed to parse config file: " ++ e)
  | .parsed ov =>
    let cfg : Config :=
      { LiveSplitExportPath := ov.LiveSplitExportPath.getD ""
        FileCheckInterval := ov.FileCheckInterval.getD 5000000000
        GoogleSheetsCredentialsPath := ov.GoogleSheetsCredentialsPath.getD ""
        GoogleSheetID := ov.GoogleSheetID.getD ""
        RawDataSheet1Name := ov.RawDataSheet1Name.getD ""
        RawDataSheet2Name := ov.RawDataSheet2Name.getD ""
        LogPath := ov.LogPath.getD ""
        LogLevel := ov.LogLevel.getD "info" }
    if cfg.LiveSplitExportPath = "" then
      .error "LiveSplitExportPath is required"
    else if cfg.GoogleSheetsCredentialsPath = "" then
      .error "GoogleSheetsCredentialsPath is required"
    else if cfg.GoogleSheetID = "" then
      .error "GoogleSheetID is required"
    else if cfg.RawDataSheet1Name = "" then
      .error "RawDataSheet1Name is required"
    else if cfg.RawDataSheet2Name = "" then
      .error "RawDataSheet2Name is required"
    else
      .ok cfg

/-! ## Theorems -/

/-- C10: every call to `GoogleSheetsClient.UpdateSheet` made while no
successful `Connect` has stored a service handle returns the
"not connected" error and issues no destination operation at all: no
spreadsheet lookup, no clear, no write, and the destination state is
untouched. -/
theorem updateSheet_not_connected (env : SheetsEnv) (vals : SheetsValues)
    (sheetID sheetName : String) (data : RowSet) :
    GoogleSheetsClient.UpdateSheet env false vals sheetID sheetName data =
      ⟨.error "not connected to Google Sheets API", vals, []⟩ := rfl

/-- C8: calling `FSNotifyWatcher.Start` while the watcher is already
running succeeds, returns the existing notification channel, and leaves
the watcher state (in particular the count of open OS-level watch
handles) unchanged. -/
theorem watcherStart_idempotent (env : WatchEnv) (fw : WatcherState)
    (h : fw.isRunning = true) :
    FSNotifyWatcher.Start env fw = (.ok fw.eventsChan, fw) := by
  simp [FSNotifyWatcher.Start, h]

/-- Witness for `watcherStart_idempotent` at a concrete running
watcher. -/
theorem watcherStart_idempotent_witness :
    (⟨true, 7, 1⟩ : WatcherState).isRunning = true ∧
    FSNotifyWatcher.Start ⟨true, true⟩ ⟨true, 7, 1⟩ =
      (.ok 7, (⟨true, 7, 1⟩ : WatcherState)) :=
  ⟨rfl, watcherStart_idempotent ⟨true, true⟩ ⟨true, 7, 1⟩ rfl⟩

/-- C6: the watcher's event filter emits a notification exactly when the
event's base name equals the target file's base name and the event has
the Write or the Create bit; pure Remove, Rename, and Chmod events never
produce a notification (and neither do events whose base name differs,
by the left conjunct of the equivalence). -/
theorem shouldEmit_characterization (base : String → String)
    (filename : String) :
    (∀ ev : FsEvent,
      FSNotifyWatcher.shouldEmit base filename ev = true ↔
        (base ev.Name = filename ∧
          (ev.Op &&& fsnotifyWrite = fsnotifyWrite ∨
           ev.Op &&& fsnotifyCreate = fsnotifyCreate))) ∧
    (∀ n : String,
      FSNotifyWatcher.shouldEmit base filename ⟨n, fsnotifyRemove⟩ = false ∧
      FSNotifyWatcher.shouldEmit base filename ⟨n, fsnotifyRename⟩ = false ∧
      FSNotifyWatcher.shouldEmit base filename ⟨n, fsnotifyChmod⟩ = false) := by
  constructor
  · intro ev
    unfold FSNotifyWatcher.shouldEmit
    by_cases hb : base ev.Name = filename <;> simp [hb]
  · intro n
    unfold FSNotifyWatcher.shouldEmit
    by_cases hb : base n = filename <;>
      simp [hb, fsnotifyRemove, fsnotifyRename, fsnotifyChmod,
        fsnotifyWrite, fsnotifyCreate]

/-- C5: `RunUpdater.Start` always performs the destination connect as its
first step, and when the connect fails it returns that failure and stops:
the watcher is never started and no processing loop is launched. -/
theorem start_connect_first (connectRes watcherRes : Except String Unit) :
    (RunUpdater.Start connectRes watcherRes).2.head? = some .connect ∧
    (∀ e, connectRes = .error e →
      (RunUpdater.Start connectRes watcherRes).1 =
        .error ("failed to connect to Google Sheets: " ++ e) ∧
      StartEffect.watcherStart ∉ (RunUpdater.Start connectRes watcherRes).2 ∧
      StartEffect.loopLaunched ∉ (RunUpdater.Start connectRes watcherRes).2) := by
  cases connectRes with
  | error e => simp [RunUpdater.Start]
  | ok u => cases u; cases watcherRes <;> simp [RunUpdater.Start]

/-- Witness for `start_connect_first` at a concrete failing connect. -/
theorem start_connect_first_witness :
    (RunUpdater.Start (.error "bad credentials") (.ok ())).2.head? =
      some .connect ∧
    (RunUpdater.Start (.error "bad credentials") (.ok ())).1 =
      .error "failed to connect to Google Sheets: bad credentials" :=
  ⟨(start_connect_first (.error "bad credentials") (.ok ())).1,
   ((start_connect_first (.error "bad credentials") (.ok ())).2
      "bad credentials" rfl).1⟩

/-- C9: after a successful parse, `LoadConfig` succeeds exactly when all
five required fields are non-empty, and a successful load whose file did
not supply a check interval gets the 5-second (5000000000 ns) default. -/
theorem loadConfig_validation (ov : ConfigOverlay) :
    ((∃ c, LoadConfig (.parsed ov) = .ok c) ↔
      (ov.LiveSplitExportPath.getD "" ≠ "" ∧
       ov.GoogleSheetsCredentialsPath.getD "" ≠ "" ∧
       ov.GoogleSheetID.getD "" ≠ "" ∧
       ov.RawDataSheet1Name.getD "" ≠ "" ∧
       ov.RawDataSheet2Name.getD "" ≠ "")) ∧
    (∀ c, LoadConfig (.parsed ov) = .ok c → ov.FileCheckInterval = none →
      c.FileCheckInterval = 5000000000) := by
  unfold LoadConfig
  dsimp only
  split_ifs with h1 h2 h3 h4 h5 <;> simp_all

/-- Witness for `loadConfig_validation`: a concrete overlay with all five
required fields set and no check interval loads successfully with the
5-second default. -/
theorem loadConfig_validation_witness :
    ∃ c,
      LoadConfig (.parsed
        { LiveSplitExportPath := some "export.xlsx"
          GoogleSheetsCredentialsPath := some "cred.json"
          GoogleSheetID := some "gid"
          RawDataSheet1Name := some "A"
          RawDataSheet2Name := some "B" }) = .ok c ∧
      c.FileCheckInterval = 5000000000 := by
  obtain ⟨c, hc⟩ := (loadConfig_validation
    { LiveSplitExportPath := some "export.xlsx"
      GoogleSheetsCredentialsPath := some "cred.json"
      GoogleSheetID := some "gid"
      RawDataSheet1Name := some "A"
      RawDataSheet2Name := some "B" }).1.mpr (by decide)
  exact ⟨c, hc, (loadConfig_validation _).2 c hc rfl⟩

/-- C1: for a notification whose path matches the configured target,
processing reads table 1 then table 2, and only if both reads succeed
issues one replace-call for table 1 then one for table 2; within each
replace-call the clear precedes the write. Under full success the trace
is exactly read 1, read 2, then (lookup, clear, write) for sheet 1, then
(lookup, clear, write) for sheet 2; if a read fails the trace stops at
the reads and contains no destination call. -/
theorem processFileChange_fixed_sequence (cfg : Config)
    (clean : String → String) (renv : ReadEnv) (senv : SheetsEnv)
    (vals : SheetsValues) (p : String)
    (hpath : clean p = clean cfg.LiveSplitExportPath) :
    (∀ d1 d2,
      renv.readSheet p cfg.RawDataSheet1Name = .ok d1 →
      renv.readSheet p cfg.RawDataSheet2Name = .ok d2 →
      senv.getOk = true →
      cfg.RawDataSheet1Name ∈ senv.sheetTitles →
      cfg.RawDataSheet2Name ∈ senv.sheetTitles →
      senv.clearOk cfg.RawDataSheet1Name = true →
      senv.writeOk cfg.RawDataSheet1Name = true →
      senv.clearOk cfg.RawDataSheet2Name = true →
      senv.writeOk cfg.RawDataSheet2Name = true →
      (RunUpdater.processFileChange cfg clean renv senv true vals p).result =
          .ok () ∧
      (RunUpdater.processFileChange cfg clean renv senv true vals p).trace =
        [.readSheet p cfg.RawDataSheet1Name,
         .readSheet p cfg.RawDataSheet2Name,
         .getSpreadsheet cfg.GoogleSheetID,
         .clearValues cfg.GoogleSheetID cfg.RawDataSheet1Name,
         .updateValues cfg.GoogleSheetID cfg.RawDataSheet1Name d1,
         .getSpreadsheet cfg.GoogleSheetID,
         .clearValues cfg.GoogleSheetID cfg.RawDataSheet2Name,
         .updateValues cfg.GoogleSheetID cfg.RawDataSheet2Name d2]) ∧
    (∀ e, renv.readSheet p cfg.RawDataSheet1Name = .error e →
      (RunUpdater.processFileChange cfg clean renv senv true vals p).trace =
        [.readSheet p cfg.RawDataSheet1Name]) ∧
    (∀ d1 e,
      renv.readSheet p cfg.RawDataSheet1Name = .ok d1 →
      renv.readSheet p cfg.RawDataSheet2Name = .error e →
      (RunUpdater.processFileChange cfg clean renv senv true vals p).trace =
        [.readSheet p cfg.RawDataSheet1Name,
         .readSheet p cfg.RawDataSheet2Name]) := by
  refine ⟨?_, ?_, ?_⟩
  · intro d1 d2 h1 h2 hget ht1 ht2 hc1 hw1 hc2 hw2
    unfold RunUpdater.processFileChange GoogleSheetsClient.UpdateSheet
    simp [hpath, h1, h2, hget, ht1, ht2, hc1, hw1, hc2, hw2]
  · intro e h1
    unfold RunUpdater.processFileChange
    simp [hpath, h1]
  · intro d1 e h1 h2
    unfold RunUpdater.processFileChange
    simp [hpath, h1, h2]

/-- The configuration used by the concrete witnesses: watch
"export.xlsx", sync tables "A" and "B" into spreadsheet "gid". -/
def cfgW : Config :=
  { LiveSplitExportPath := "export.xlsx"
    FileCheckInterval := 5000000000
    GoogleSheetsCredentialsPath := "cred.json"
    GoogleSheetID := "gid"
    RawDataSheet1Name := "A"
    RawDataSheet2Name := "B"
    LogPath := ""
    LogLevel := "info" }

/-- A reader returning the spec's example data: table "A" holds
`[[x,1],[y,2]]` and table "B" holds `[[z,3]]`. -/
def renvW : ReadEnv :=
  ⟨fun _ n =>
    if n = "A" then .ok [["x", "1"], ["y", "2"]]
    else if n = "B" then .ok [["z", "3"]]
    else .error "sheet not found"⟩

/-- A destination environment where every call succeeds and the
spreadsheet contains sheets "A" and "B". -/
def senvW : SheetsEnv := ⟨true, ["A", "B"], fun _ => true, fun _ => true⟩

/-- An initially empty destination. -/
def valsW : SheetsValues := fun _ => []

/-- Witness for `processFileChange_fixed_sequence`: on the spec's example
data one matching notification produces exactly the eight-operation
trace, replacing "A" before "B", with each clear before its write. -/
theorem processFileChange_fixed_sequence_witness :
    (RunUpdater.processFileChange cfgW id renvW senvW true valsW
        "export.xlsx").result = .ok () ∧
    (RunUpdater.processFileChange cfgW id renvW senvW true valsW
        "export.xlsx").trace =
      [.readSheet "export.xlsx" "A",
       .readSheet "export.xlsx" "B",
       .getSpreadsheet "gid",
       .clearValues "gid" "A",
       .updateValues "gid" "A" [["x", "1"], ["y", "2"]],
       .getSpreadsheet "gid",
       .clearValues "gid" "B",
       .updateValues "gid" "B" [["z", "3"]]] :=
  (processFileChange_fixed_sequence cfgW id renvW senvW valsW
      "export.xlsx" rfl).1
    [["x", "1"], ["y", "2"]] [["z", "3"]]
    rfl rfl rfl (by decide) (by decide)
    rfl rfl rfl rfl

/-- C4: a notification whose path does not normalize to the configured
target is discarded silently: the processing returns no error, issues
zero reads and zero destination calls, leaves the destination untouched,
and the loop just moves on to the next input (only the unconditional
detection log line is emitted). -/
theorem nonmatching_path_ignored (cfg : Config) (clean : String → String)
    (renv : ReadEnv) (senv : SheetsEnv) (connected : Bool)
    (vals : SheetsValues) (p : String) (rest : List LoopInput)
    (hpath : clean p ≠ clean cfg.LiveSplitExportPath) :
    RunUpdater.processFileChange cfg clean renv senv connected vals p =
      ⟨.ok (), vals, []⟩ ∧
    RunUpdater.loopRun cfg clean renv senv connected
        (.notif p :: rest) vals =
      ⟨(RunUpdater.loopRun cfg clean renv senv connected rest vals).final,
        .log ("Detected change in file: " ++ p) ::
          (RunUpdater.loopRun cfg clean renv senv connected rest vals).effects,
        (RunUpdater.loopRun cfg clean renv senv connected rest vals).exit⟩ := by
  have hp : RunUpdater.processFileChange cfg clean renv senv connected
      vals p = ⟨.ok (), vals, []⟩ := by
    unfold RunUpdater.processFileChange
    simp [hpath]
  exact ⟨hp, by simp [RunUpdater.loopRun, hp]⟩

/-- Witness for `nonmatching_path_ignored`: a file with the same base
name but a different full path than the configured target is discarded
without any read or destination call. -/
theorem nonmatching_path_ignored_witness :
    RunUpdater.processFileChange cfgW id renvW senvW true valsW
        "backup/export.xlsx" = ⟨.ok (), valsW, []⟩ ∧
    RunUpdater.loopRun cfgW id renvW senvW true
        [.notif "backup/export.xlsx"] valsW =
      ⟨(RunUpdater.loopRun cfgW id renvW senvW true [] valsW).final,
        .log ("Detected change in file: " ++ "backup/export.xlsx") ::
          (RunUpdater.loopRun cfgW id renvW senvW true [] valsW).effects,
        (RunUpdater.loopRun cfgW id renvW senvW true [] valsW).exit⟩ :=
  nonmatching_path_ignored cfgW id renvW senvW true valsW
    "backup/export.xlsx" [] (by decide)

/-- C2: when the read of the first configured table fails, processing
aborts with the wrapped read error having issued only that read — no
destination call for either table — the destination state is untouched,
and the loop logs the error and continues with the remaining inputs
unchanged. -/
theorem first_read_failure_skips_sink (cfg : Config)
    (clean : String → String) (renv : ReadEnv) (senv : SheetsEnv)
    (vals : SheetsValues) (p : String) (rest : List LoopInput) (e : String)
    (hpath : clean p = clean cfg.LiveSplitExportPath)
    (h1 : renv.readSheet p cfg.RawDataSheet1Name = .error e) :
    RunUpdater.processFileChange cfg clean renv senv true vals p =
      ⟨.error ("failed to read first sheet: " ++ e), vals,
        [.readSheet p cfg.RawDataSheet1Name]⟩ ∧
    RunUpdater.loopRun cfg clean renv senv true (.notif p :: rest) vals =
      ⟨(RunUpdater.loopRun cfg clean renv senv true rest vals).final,
        .log ("Detected change in file: " ++ p) ::
          .op (.readSheet p cfg.RawDataSheet1Name) ::
          .log ("Error processing file change: " ++
            ("failed to read first sheet: " ++ e)) ::
          (RunUpdater.loopRun cfg clean renv senv true rest vals).effects,
        (RunUpdater.loopRun cfg clean renv senv true rest vals).exit⟩ := by
  have hp : RunUpdater.processFileChange cfg clean renv senv true vals p =
      ⟨.error ("failed to read first sheet: " ++ e), vals,
        [.readSheet p cfg.RawDataSheet1Name]⟩ := by
    unfold RunUpdater.processFileChange
    simp [hpath, h1]
  exact ⟨hp, by simp [RunUpdater.loopRun, hp]⟩

/-- A reader whose read of table "A" fails. -/
def renvBadRead : ReadEnv :=
  ⟨fun _ n => if n = "A" then .error "file locked" else .ok [["z", "3"]]⟩

/-- Witness for `first_read_failure_skips_sink` at a concrete failing
read of table "A". -/
theorem first_read_failure_skips_sink_witness :
    RunUpdater.processFileChange cfgW id renvBadRead senvW true valsW
        "export.xlsx" =
      ⟨.error ("failed to read first sheet: " ++ "file locked"), valsW,
        [.readSheet "export.xlsx" "A"]⟩ ∧
    RunUpdater.loopRun cfgW id renvBadRead senvW true
        [.notif "export.xlsx"] valsW =
      ⟨(RunUpdater.loopRun cfgW id renvBadRead senvW true [] valsW).final,
        .log ("Detected change in file: " ++ "export.xlsx") ::
          .op (.readSheet "export.xlsx" "A") ::
          .log ("Error processing file change: " ++
            ("failed to read first sheet: " ++ "file locked")) ::
          (RunUpdater.loopRun cfgW id renvBadRead senvW true [] valsW).effects,
        (RunUpdater.loopRun cfgW id renvBadRead senvW true [] valsW).exit⟩ :=
  first_read_failure_skips_sink cfgW id renvBadRead senvW valsW
    "export.xlsx" [] "file locked" rfl rfl

/-- C3 (amended): when the replace-call for the first table succeeds and
the one for the second fails, the first destination table holds the new
data, processing of the notification stops with the wrapped error, and
the loop continues with the remaining inputs; the second table is left
unchanged when the failure struck at the spreadsheet lookup or the clear
step, but is left cleared (empty, not "as last successfully synced")
when its clear succeeded and the write failed. -/
theorem second_update_failure (cfg : Config) (clean : String → String)
    (renv : ReadEnv) (senv : SheetsEnv) (vals : SheetsValues) (p : String)
    (rest : List LoopInput) (d1 d2 : RowSet) (r : OpResult)
    (hr : r = RunUpdater.processFileChange cfg clean renv senv true vals p)
    (hpath : clean p = clean cfg.LiveSplitExportPath)
    (h1 : renv.readSheet p cfg.RawDataSheet1Name = .ok d1)
    (h2 : renv.readSheet p cfg.RawDataSheet2Name = .ok d2)
    (hget : senv.getOk = true)
    (ht1 : cfg.RawDataSheet1Name ∈ senv.sheetTitles)
    (hc1 : senv.clearOk cfg.RawDataSheet1Name = true)
    (hw1 : senv.writeOk cfg.RawDataSheet1Name = true)
    (hne : cfg.RawDataSheet2Name ≠ cfg.RawDataSheet1Name)
    (hfail : ¬(cfg.RawDataSheet2Name ∈ senv.sheetTitles ∧
        senv.clearOk cfg.RawDataSheet2Name = true ∧
        senv.writeOk cfg.RawDataSheet2Name = true)) :
    (∃ msg, r.result =
      .error ("failed to update second Google Sheet: " ++ msg)) ∧
    r.vals cfg.RawDataSheet1Name = d1 ∧
    (cfg.RawDataSheet2Name ∉ senv.sheetTitles ∨
        senv.clearOk cfg.RawDataSheet2Name = false →
      r.vals cfg.RawDataSheet2Name = vals cfg.RawDataSheet2Name) ∧
    (cfg.RawDataSheet2Name ∈ senv.sheetTitles →
      senv.clearOk cfg.RawDataSheet2Name = true →
      r.vals cfg.RawDataSheet2Name = []) ∧
    (RunUpdater.loopRun cfg clean renv senv true
        (.notif p :: rest) vals).final =
      (RunUpdater.loopRun cfg clean renv senv true rest r.vals).final ∧
    (RunUpdater.loopRun cfg clean renv senv true
        (.notif p :: rest) vals).exit =
      (RunUpdater.loopRun cfg clean renv senv true rest r.vals).exit := by
  have hs12 : cfg.RawDataSheet1Name ≠ cfg.RawDataSheet2Name :=
    fun h => hne h.symm
  by_cases hm : cfg.RawDataSheet2Name ∈ senv.sheetTitles
  · by_cases hc : senv.clearOk cfg.RawDataSheet2Name = true
    · have hw : senv.writeOk cfg.RawDataSheet2Name = false := by
        cases hwb : senv.writeOk cfg.RawDataSheet2Name with
        | false => rfl
        | true => exact absurd ⟨hm, hc, hwb⟩ hfail
      subst hr
      simp [RunUpdater.processFileChange, GoogleSheetsClient.UpdateSheet,
        RunUpdater.loopRun, hpath, h1, h2, hget, ht1, hc1, hw1, hm, hc, hw,
        hne, hs12]
      exact ⟨"unable to update sheet", by decide⟩
    · have hc' : senv.clearOk cfg.RawDataSheet2Name = false := by
        cases hcb : senv.clearOk cfg.RawDataSheet2Name with
        | false => rfl
        | true => exact absurd hcb hc
      subst hr
      simp [RunUpdater.processFileChange, GoogleSheetsClient.UpdateSheet,
        RunUpdater.loopRun, hpath, h1, h2, hget, ht1, hc1, hw1, hm, hc',
        hne, hs12]
      exact ⟨"unable to clear sheet", by decide⟩
  · subst hr
    simp [RunUpdater.processFileChange, GoogleSheetsClient.UpdateSheet,
      RunUpdater.loopRun, hpath, h1, h2, hget, ht1, hc1, hw1, hm,
      hne, hs12]

/-- A destination environment where every call for sheet "A" succeeds
but the write (update) call for sheet "B" fails after its clear
succeeded. -/
def senvBadWriteB : SheetsEnv :=
  ⟨true, ["A", "B"], fun _ => true, fun n => n == "A"⟩

/-- A destination whose sheet "B" holds previously synced data. -/
def valsOldB : SheetsValues := fun n => if n = "B" then [["old"]] else []

/-- Witness for `second_update_failure` at a concrete run where the
write for "B" fails after its clear succeeded: "A" holds the new data,
"B" is left cleared, and the loop continues with the remaining inputs. -/
theorem second_update_failure_witness :
    (∃ msg,
      (RunUpdater.processFileChange cfgW id renvW senvBadWriteB true
          valsOldB "export.xlsx").result =
        .error ("failed to update second Google Sheet: " ++ msg)) ∧
    (RunUpdater.processFileChange cfgW id renvW senvBadWriteB true
        valsOldB "export.xlsx").vals "A" = [["x", "1"], ["y", "2"]] ∧
    (RunUpdater.processFileChange cfgW id renvW senvBadWriteB true
        valsOldB "export.xlsx").vals "B" = [] := by
  have h := second_update_failure cfgW id renvW senvBadWriteB valsOldB
    "export.xlsx" [] [["x", "1"], ["y", "2"]] [["z", "3"]]
    (RunUpdater.processFileChange cfgW id renvW senvBadWriteB true
      valsOldB "export.xlsx")
    rfl rfl rfl rfl rfl (by decide) rfl rfl (by decide) (by decide)
  exact ⟨h.1, h.2.1, h.2.2.2.1 (by decide) rfl⟩

/-- C3 counterexample to the claim as stated: with destination sheet "B"
previously holding `[["old"]]`, a run where the replace of "A" succeeds
and the replace of "B" fails at its write step (after its clear
succeeded) leaves "B" empty — not "as last successfully synced". -/
theorem second_update_failure_counterexample :
    (RunUpdater.processFileChange cfgW id renvW senvBadWriteB true
        valsOldB "export.xlsx").result =
      .error "failed to update second Google Sheet: unable to update sheet" ∧
    valsOldB "B" = [["old"]] ∧
    (RunUpdater.processFileChange cfgW id renvW senvBadWriteB true
        valsOldB "export.xlsx").vals "B" = [] ∧
    (RunUpdater.processFileChange cfgW id renvW senvBadWriteB true
        valsOldB "export.xlsx").vals "B" ≠ valsOldB "B" := by
  refine ⟨?_, rfl, ?_, ?_⟩ <;>
    simp [RunUpdater.processFileChange, GoogleSheetsClient.UpdateSheet,
      cfgW, renvW, senvBadWriteB, valsOldB]

/-- C7 (amended): when the watcher channel closes, the processing loop
exits its wait immediately, emits only the closure log line, and leaves
the destination untouched; the host-visible outcome is unchanged —
`Start` already returned success and the goroutine's exit is not
reported to the host. -/
theorem channel_close_only_logged (cfg : Config) (clean : String → String)
    (renv : ReadEnv) (senv : SheetsEnv) (connected : Bool)
    (vals : SheetsValues) (rest : List LoopInput) :
    RunUpdater.loopRun cfg clean renv senv connected
        (.chanClosed :: rest) vals =
      ⟨vals, [.log "File watcher channel closed"], .chanClosed⟩ ∧
    (RunUpdater.systemRun (.ok ()) (.ok ()) cfg clean renv senv
        (.chanClosed :: rest) vals).1 =
      (.ok (), [.connect, .watcherStart, .loopLaunched]) :=
  ⟨rfl, rfl⟩

/-- C7 counterexample to the claim as stated: at the concrete run whose
stream ends, the loop exits with exactly one log line as its only
effect, and the host-visible result of the whole run is still plain
success — nothing terminal is surfaced to the host. -/
theorem channel_close_counterexample :
    (RunUpdater.systemRun (.ok ()) (.ok ()) cfgW id renvW senvW
        [.chanClosed] valsW).1.1 = .ok () ∧
    (RunUpdater.systemRun (.ok ()) (.ok ()) cfgW id renvW senvW
        [.chanClosed] valsW).2 =
      some ⟨valsW, [.log "File watcher channel closed"], .chanClosed⟩ :=
  ⟨rfl, rfl⟩

end RunUpdaterModel
